import Mathlib

/-!
Shallow embedding of the `yf-import` Cloudflare worker (src/index.ts, the
full-featured revision with exchange-prefix rewrite, edge caching and symbol
search).  The worker's `fetch` handler is modelled as a pure function from the
request, the environment bindings, the cache contents and an oracle for the
upstream Yahoo Finance endpoints, to the produced `Response` together with a
trace of the effects performed (upstream quote calls, search calls, cache
lookups and cache writes).

JavaScript string operations are modelled on the character list of the
string (`String.data`), keeping their ECMAScript semantics; this keeps every
definition executable by kernel reduction.
-/

/-- Model of the ECMAScript `s.startsWith(pre)`. -/
def jsStartsWith (s pre : String) : Bool := pre.data.isPrefixOf s.data

/-- Model of `s.includes(c)` for a single character. -/
def jsContainsChar (s : String) (c : Char) : Bool := s.data.contains c

/-- Model of `s.toUpperCase()` (ASCII case mapping, which is all the worker needs). -/
def jsToUpper (s : String) : String := String.mk (s.data.map Char.toUpper)

/-- Model of `s.toLowerCase()` (ASCII case mapping). -/
def jsToLower (s : String) : String := String.mk (s.data.map Char.toLower)

/-- Whitespace trimming on both ends, as `parseInt` performs on its input. -/
def jsTrim (s : String) : String :=
  String.mk (((s.data.dropWhile Char.isWhitespace).reverse.dropWhile Char.isWhitespace).reverse)

/-- Model of `s.split(c)` for a one-character separator: the list of maximal
chunks between occurrences of `c`; the empty string splits to `[""]`. -/
def splitOnCharList (c : Char) : List Char → List (List Char)
  | [] => [[]]
  | x :: xs =>
    match splitOnCharList c xs with
    | [] => [[]]
    | h :: t => if x == c then [] :: h :: t else (x :: h) :: t

/-- Model of `symbol.split(":")`. -/
def jsSplitColon (s : String) : List String := (splitOnCharList ':' s.data).map String.mk

/-- A JavaScript number (IEEE 754 double) as the worker observes it.  The code
only ever null-checks a price and converts it to a string with
`Number.prototype.toString`, which by ECMA-262 produces the minimal decimal
string that round-trips the value; we therefore represent a price by that
canonical string. -/
structure JSNumber where
  str : String
deriving DecidableEq, Repr

/-- Model of `Number.prototype.toString` (radix 10). -/
def JSNumber.toString (n : JSNumber) : String := n.str

/-- Environment bindings (interface `Env` in src/index.ts). -/
structure Env where
  CACHE_TTL : Option String
  ROOT_REDIRECT_URL : Option String
deriving Repr

/-- The parts of a WHATWG `URL` object the handler reads. -/
structure Url where
  origin : String
  pathname : String
  search : String
deriving DecidableEq, Repr

/-- An inbound request: method plus parsed URL. -/
structure Request where
  method : String
  url : Url
deriving DecidableEq, Repr

/-- An HTTP response as the worker builds them: status, header list, body. -/
structure Response where
  status : Nat
  headers : List (String × String)
  body : String
deriving DecidableEq, Repr

/-- Constructor for the `new Response` calls of the worker: a status, a body,
and the single header `Content-Type: text/plain` - the shape used for every
non-redirect response of the worker. -/
def textResponse (status : Nat) (body : String) : Response :=
  { status := status, headers := [("Content-Type", "text/plain")], body := body }

/-- Model of `Response.redirect(location, status)` per the Fetch standard: the
header list holds exactly the `Location` header and the body is empty. -/
def Response.redirect (location : String) (status : Nat) : Response :=
  { status := status, headers := [("Location", location)], body := "" }

/-- Outcome of the platform `fetch` against the quote endpoint
`/v8/finance/chart/SYMBOL`, as far as `getYahooQuote` inspects it: either the
promise rejects (network error, malformed body) with an error message, or a
response arrives with a status and with the JSON field
`chart.result[0].meta.regularMarketPrice` present or absent. -/
inductive QuoteFetchOutcome where
  | fetchError (msg : String)
  | resp (status : Nat) (price : Option JSNumber)
deriving DecidableEq, Repr

/-- Outcome of the platform `fetch` against the search endpoint
`/v1/finance/search?q=...`: a rejected promise, or a response with its `ok`
flag and the JSON array `quotes`, each element reduced to its `symbol` field
when that field is a string (`none` when missing or not a string). -/
inductive SearchFetchOutcome where
  | fetchError
  | resp (ok : Bool) (quotes : List (Option String))
deriving DecidableEq, Repr

/-- The upstream world: what Yahoo Finance answers for each symbol / query. -/
structure World where
  quote : String → QuoteFetchOutcome
  search : String → SearchFetchOutcome

/-- Result of `getYahooQuote`: a price, `null`, or a thrown error. -/
inductive QuoteResult where
  | price (p : JSNumber)
  | noPrice
  | error (msg : String)
deriving DecidableEq, Repr

/-- Embedding of `getYahooQuote` (src/index.ts): 404 from upstream means no price; any
other non-2xx status throws `Yahoo Finance API error: STATUS`; on success the
extracted price, with `price ?? null` collapsing an absent value to null. -/
def getYahooQuote (world : World) (symbol : String) : QuoteResult :=
  match world.quote symbol with
  | .fetchError msg => .error msg
  | .resp status price =>
    if status == 404 then
      .noPrice
    else if !(200 ≤ status && status ≤ 299) then
      .error ("Yahoo Finance API error: " ++ toString status)
    else
      match price with
      | some p => .price p
      | none => .noPrice

/-- Result of `searchYahooSymbol`: a list of candidate symbols, or a thrown
error (rejected fetch / failed body read). -/
inductive SearchResult where
  | ok (symbols : List String)
  | error
deriving DecidableEq, Repr

/-- Embedding of `searchYahooSymbol` (src/index.ts): a non-ok response yields `[]`; else
the `quotes` entries are mapped to `q?.symbol`, filtered to strings, and the
first 3 are kept. -/
def searchYahooSymbol (world : World) (query : String) : SearchResult :=
  match world.search query with
  | .fetchError => .error
  | .resp ok quotes =>
    if !ok then .ok []
    else .ok ((quotes.filterMap id).take 3)

/-- Characters `encodeURIComponent` leaves unescaped (ECMA-262
`uriUnescaped`): alphanumerics and `- _ . ! ~ * ' ( )`. -/
def isUriUnreserved (c : Char) : Bool :=
  c.isAlphanum || c == '-' || c == '_' || c == '.' || c == '!' ||
    c == '~' || c == '*' || c == Char.ofNat 39 || c == '(' || c == ')'

/-- Upper-case hex digit for a value below 16. -/
def hexDigitChar (n : Nat) : Char :=
  if n < 10 then Char.ofNat (48 + n) else Char.ofNat (55 + n)

/-- The UTF-8 bytes of one character. -/
def utf8Bytes (c : Char) : List Nat :=
  let n := c.toNat
  if n < 128 then [n]
  else if n < 2048 then [192 + n / 64, 128 + n % 64]
  else if n < 65536 then [224 + n / 4096, 128 + (n / 64) % 64, 128 + n % 64]
  else [240 + n / 262144, 128 + (n / 4096) % 64, 128 + (n / 64) % 64, 128 + n % 64]

/-- Percent-encoding of one byte, upper-case hex. -/
def percentEncodeByte (b : Nat) : String :=
  String.mk ['%', hexDigitChar (b / 16), hexDigitChar (b % 16)]

/-- Model of `encodeURIComponent`: unreserved characters pass through, every other
character is replaced by the percent-encoding of its UTF-8 bytes. -/
def encodeURIComponent (s : String) : String :=
  s.data.foldl
    (fun acc c =>
      if isUriUnreserved c then acc.push c
      else acc ++ String.join ((utf8Bytes c).map percentEncodeByte))
    ""

/-- Model of `parseInt(s, 10)`: trim whitespace, optional sign, longest prefix of
decimal digits; `none` models `NaN` (no digits at all). -/
def jsParseInt10 (s : String) : Option Int :=
  let core : List Char × Int :=
    match (jsTrim s).data with
    | '-' :: rest => (rest, -1)
    | '+' :: rest => (rest, 1)
    | l => (l, 1)
  let digits := core.1.takeWhile Char.isDigit
  if digits.isEmpty then none
  else some (core.2 * (digits.foldl (fun n c => n * 10 + (c.toNat - 48)) (0 : Nat) : Nat))

/-- Rendering of a JS number that is either `NaN` or an integer, as template
interpolation does. -/
def jsNumToString : Option Int → String
  | none => "NaN"
  | some i => toString i

/-- Model of `env.CACHE_TTL || "300"`: the empty string is falsy. -/
def ttlSource : Option String → String
  | none => "300"
  | some s => if s == "" then "300" else s

/-- The regex `^\/api\/quotes\/([^/]+)$`: a single non-empty path segment
after `/api/quotes/` (12 characters). -/
def matchQuotesPath (pathname : String) : Option String :=
  if jsStartsWith pathname "/api/quotes/" then
    let rest := pathname.data.drop 12
    if !rest.isEmpty && !(rest.contains '/') then some (String.mk rest) else none
  else none

/-- Modelled from the spec: `isValidUrl` needs to know whether `new URL(s)`
succeeds and which scheme
it yields, and the WHATWG URL parser is host-platform code outside this
repository.  Per the spec, a valid absolute URL starts with a scheme
(an ASCII letter followed by letters, digits, `+`, `-`, `.`) and a colon; the
scheme is returned lower-cased with the trailing colon, as `url.protocol`
reports it. -/
def jsUrlProtocol (s : String) : Option String :=
  match s.data with
  | [] => none
  | c :: rest =>
    if c.isAlpha then
      let sch := (c :: rest).takeWhile fun ch =>
        ch.isAlphanum || ch == '+' || ch == '-' || ch == '.'
      match (c :: rest).drop sch.length with
      | ':' :: _ => some (String.mk (sch.map Char.toLower) ++ ":")
      | _ => none
    else none

/-- Embedding of `isValidUrl` (src/index.ts): the string parses as a URL and its protocol
is `http:` or `https:`. -/
def isValidUrl (urlString : String) : Bool :=
  match jsUrlProtocol urlString with
  | some p => p == "http:" || p == "https:"
  | none => false

/-- Result of `tryRewriteExchangeSymbol`: an optional redirect response plus
the upstream quote calls the probe performed. -/
structure RewriteOut where
  redirect : Option Response
  calls : List String
deriving Repr

/-- Embedding of `tryRewriteExchangeSymbol` (src/index.ts): for a symbol containing `:`,
split on `:`; when the part before the first colon is `BIT` case-insensitively
and the part after it is non-empty, probe `BASE.MI`; a price yields a 301
redirect to `/api/quotes/BASE.MI` (URL-encoded), anything else — including a
thrown probe error — yields no rewrite. -/
def tryRewriteExchangeSymbol (world : World) (symbol : String) (url : Url) : RewriteOut :=
  if !(jsContainsChar symbol ':') then ⟨none, []⟩
  else
    let parts := jsSplitColon symbol
    let pre := parts.headD ""
    let base := (parts.drop 1).headD ""
    if jsToUpper pre != "BIT" || base == "" then ⟨none, []⟩
    else
      let candidate := base ++ ".MI"
      match getYahooQuote world candidate with
      | .price _ =>
        ⟨some (Response.redirect
            (url.origin ++ "/api/quotes/" ++ encodeURIComponent candidate) 301), [candidate]⟩
      | _ => ⟨none, [candidate]⟩

/-- The cache as the handler sees it: stored response per cache key. -/
def Cache := String → Option Response

/-- The cache key built from the request:
`new Request(url.origin + url.pathname, request)` — the URL without its query
string. -/
def cacheKeyOf (url : Url) : String := url.origin ++ url.pathname

/-- The handler's observable outcome: the response plus the effect trace. -/
structure HandlerResult where
  response : Response
  quoteCalls : List String
  searchCalls : List String
  cacheLookups : List String
  cachePut : Option (String × Response)
deriving DecidableEq, Repr

/-- Quote resolution after the rewrite declined (src/index.ts lines 92-160):
TTL parse, cache lookup, upstream fetch on miss, suggestion search on a
missing price, cache write-back of a priced response, 500 on a thrown
upstream error. -/
def resolveQuote (world : World) (env : Env) (cache : Cache) (url : Url)
    (symbol : String) : HandlerResult :=
  let cacheTTL := jsParseInt10 (ttlSource env.CACHE_TTL)
  let cacheKey := cacheKeyOf url
  match cache cacheKey with
  | some r => ⟨r, [], [], [cacheKey], none⟩
  | none =>
    match getYahooQuote world symbol with
    | .error msg =>
      ⟨textResponse 500 ("Error fetching quote: " ++ msg), [symbol], [], [cacheKey], none⟩
    | .noPrice =>
      match searchYahooSymbol world symbol with
      | .error =>
        ⟨textResponse 404 "Price not available", [symbol], [symbol], [cacheKey], none⟩
      | .ok suggestions =>
        if suggestions.length > 0 then
          ⟨textResponse 200
              ("Symbol not found - similar: " ++ String.intercalate " " suggestions),
            [symbol], [symbol], [cacheKey], none⟩
        else
          ⟨textResponse 404 "Price not available", [symbol], [symbol], [cacheKey], none⟩
    | .price p =>
      let resp : Response :=
        { status := 200
          headers := [("Content-Type", "text/plain"),
                      ("Cache-Control", "public, max-age=" ++ jsNumToString cacheTTL)]
          body := p.toString }
      ⟨resp, [symbol], [], [cacheKey], some (cacheKey, resp)⟩

/-- The fall-through of the handler (src/index.ts lines 163-179): a root-path
GET redirects when `ROOT_REDIRECT_URL` is set, non-empty and valid; otherwise
404 Not Found. -/
def rootOrNotFound (env : Env) (url : Url) (method : String) : HandlerResult :=
  let redirectOk :=
    url.pathname == "/" && method == "GET" &&
      (match env.ROOT_REDIRECT_URL with
       | some u => u != "" && isValidUrl u
       | none => false)
  if redirectOk then
    ⟨Response.redirect (env.ROOT_REDIRECT_URL.getD "") 301, [], [], [], none⟩
  else
    ⟨textResponse 404 "Not Found", [], [], [], none⟩

/-- The worker's `fetch` handler (src/index.ts `export default`): route on
the quotes path and GET, try the exchange-prefix rewrite, then resolve the
quote; all other requests fall through to the root redirect / 404 logic. -/
def workerFetch (world : World) (env : Env) (cache : Cache) (req : Request) :
    HandlerResult :=
  let url := req.url
  match matchQuotesPath url.pathname with
  | some symbol =>
    if req.method == "GET" then
      let rw := tryRewriteExchangeSymbol world symbol url
      match rw.redirect with
      | some resp => ⟨resp, rw.calls, [], [], none⟩
      | none =>
        let r := resolveQuote world env cache url symbol
        ⟨r.response, rw.calls ++ r.quoteCalls, r.searchCalls, r.cacheLookups, r.cachePut⟩
    else rootOrNotFound env url req.method
  | none => rootOrNotFound env url req.method

/-- Claim C5: the cache key is the request URL with the query string stripped -
two requests differing only in query parameters compute equal cache keys, and
requests for distinct symbol path segments (same origin) compute distinct
cache keys. -/
theorem c5_cache_key_shape :
    (∀ o p q₁ q₂, cacheKeyOf ⟨o, p, q₁⟩ = cacheKeyOf ⟨o, p, q₂⟩) ∧
    (∀ o q₁ q₂ s₁ s₂, s₁ ≠ s₂ →
      cacheKeyOf ⟨o, "/api/quotes/" ++ s₁, q₁⟩ ≠ cacheKeyOf ⟨o, "/api/quotes/" ++ s₂, q₂⟩) := by
  constructor
  · intro o p q₁ q₂; rfl
  · intro o q₁ q₂ s₁ s₂ hne heq
    apply hne
    unfold cacheKeyOf at heq
    simp only [String.ext_iff, String.data_append] at heq ⊢
    exact List.append_cancel_left (List.append_cancel_left heq)

/-- Concrete instantiation of the C5 theorem. -/
theorem c5_witness :
    cacheKeyOf ⟨"http://h", "/api/quotes/AAPL", "?x=1"⟩ =
      cacheKeyOf ⟨"http://h", "/api/quotes/AAPL", "?y=2"⟩ ∧
    cacheKeyOf ⟨"http://h", "/api/quotes/" ++ "AAPL", ""⟩ ≠
      cacheKeyOf ⟨"http://h", "/api/quotes/" ++ "GOOG", ""⟩ :=
  ⟨c5_cache_key_shape.1 "http://h" "/api/quotes/AAPL" "?x=1" "?y=2",
   c5_cache_key_shape.2 "http://h" "" "" "AAPL" "GOOG" (by decide)⟩

/-- Claim C8: every request whose method is not GET, on any path including the
quotes path, yields 404 with body "Not Found" and Content-Type text/plain,
with no upstream call, no cache activity, and no 405 status. -/
theorem c8_non_get_not_found (world : World) (env : Env) (cache : Cache) (req : Request)
    (hm : req.method ≠ "GET") :
    workerFetch world env cache req = ⟨textResponse 404 "Not Found", [], [], [], none⟩ := by
  have hbeq : (req.method == "GET") = false := by simpa using hm
  unfold workerFetch rootOrNotFound
  cases hmq : matchQuotesPath req.url.pathname with
  | some s => simp [hbeq, hmq]
  | none => simp [hbeq, hmq]

/-- Concrete instantiation of the C8 theorem (POST to the quotes path). -/
theorem c8_witness :
    workerFetch ⟨fun _ => .resp 200 (some ⟨"1"⟩), fun _ => .resp true []⟩ ⟨none, none⟩
        (fun _ => none) ⟨"POST", ⟨"http://h", "/api/quotes/AAPL", ""⟩⟩ =
      ⟨textResponse 404 "Not Found", [], [], [], none⟩ :=
  c8_non_get_not_found _ _ _ _ (by decide)

/-- Claim C1: a GET on the quotes path where the rewrite declines, the cache
misses, and the upstream yields price P, returns status 200 with body P's
canonical (minimal round-tripping) decimal string, headers Content-Type
text/plain and Cache-Control public, max-age=N with N the integer parse of
CACHE_TTL; N is 300 when CACHE_TTL is unset. -/
theorem c1_priced_quote (world : World) (env : Env) (cache : Cache) (req : Request)
    (symbol : String) (p : JSNumber) (n : Int)
    (hm : req.method = "GET")
    (hp : matchQuotesPath req.url.pathname = some symbol)
    (hrw : (tryRewriteExchangeSymbol world symbol req.url).redirect = none)
    (hc : cache (cacheKeyOf req.url) = none)
    (hq : getYahooQuote world symbol = .price p)
    (ht : jsParseInt10 (ttlSource env.CACHE_TTL) = some n) :
    (workerFetch world env cache req).response =
      ⟨200, [("Content-Type", "text/plain"),
             ("Cache-Control", "public, max-age=" ++ toString n)], p.str⟩ ∧
    (env.CACHE_TTL = none → n = 300) := by
  constructor
  · unfold workerFetch resolveQuote
    simp only [hp, hm, hrw, hc, hq, ht, beq_self_eq_true, if_true, jsNumToString,
      JSNumber.toString]
  · intro h
    rw [h] at ht
    have h300 : jsParseInt10 (ttlSource (none : Option String)) = some 300 := by decide
    rw [h300] at ht
    exact (Option.some.inj ht).symm

/-- Concrete instantiation of the C1 theorem. -/
theorem c1_witness :
    (workerFetch ⟨fun _ => .resp 200 (some ⟨"150.25"⟩), fun _ => .resp true []⟩
        ⟨none, none⟩ (fun _ => none) ⟨"GET", ⟨"http://h", "/api/quotes/AAPL", ""⟩⟩).response =
      ⟨200, [("Content-Type", "text/plain"),
             ("Cache-Control", "public, max-age=" ++ toString (300 : Int))], "150.25"⟩ ∧
    ((⟨none, none⟩ : Env).CACHE_TTL = none → (300 : Int) = 300) :=
  c1_priced_quote _ _ _ _ "AAPL" ⟨"150.25"⟩ 300 rfl (by decide) (by decide) rfl (by decide)
    (by decide)

lemma searchYahooSymbol_ok_length (world : World) (q : String) (l : List String)
    (h : searchYahooSymbol world q = .ok l) : l.length ≤ 3 := by
  unfold searchYahooSymbol at h
  cases hw : world.search q with
  | fetchError => rw [hw] at h; exact absurd h (by simp)
  | resp ok quotes =>
    rw [hw] at h
    cases ok with
    | false =>
      simp at h
      subst h
      simp
    | true =>
      simp at h
      subst h
      exact le_trans (List.length_take_le _ _) (by omega)

lemma noPrice_of_shape (world : World) (symbol : String) (st : Nat) (pr : Option JSNumber)
    (hq : world.quote symbol = .resp st pr)
    (hshape : st = 404 ∨ (200 ≤ st ∧ st ≤ 299 ∧ pr = none)) :
    getYahooQuote world symbol = .noPrice := by
  unfold getYahooQuote
  rw [hq]
  rcases hshape with h | ⟨h1, h2, hpr⟩
  · subst h; simp
  · have h404 : st ≠ 404 := by omega
    simp [h404, h1, h2, hpr]

/-- Claim C2: when the upstream answers the provider not-found status or a
successful response without a price, the handler treats it as no price: it
queries symbol search with the original symbol; a non-empty candidate list
(at most 3 entries) yields 200 "Symbol not found - similar: ..." joined by
spaces, while an empty list or a search error yields 404 "Price not
available" - search errors never surface. -/
theorem c2_no_price_suggestions (world : World) (env : Env) (cache : Cache) (req : Request)
    (symbol : String) (st : Nat) (pr : Option JSNumber)
    (hm : req.method = "GET")
    (hp : matchQuotesPath req.url.pathname = some symbol)
    (hrw : (tryRewriteExchangeSymbol world symbol req.url).redirect = none)
    (hc : cache (cacheKeyOf req.url) = none)
    (hq : world.quote symbol = .resp st pr)
    (hshape : st = 404 ∨ (200 ≤ st ∧ st ≤ 299 ∧ pr = none)) :
    (workerFetch world env cache req).searchCalls = [symbol] ∧
    (∀ s ss, searchYahooSymbol world symbol = .ok (s :: ss) →
      (workerFetch world env cache req).response =
        textResponse 200 ("Symbol not found - similar: " ++ String.intercalate " " (s :: ss)) ∧
      (s :: ss).length ≤ 3) ∧
    ((searchYahooSymbol world symbol = .ok [] ∨ searchYahooSymbol world symbol = .error) →
      (workerFetch world env cache req).response = textResponse 404 "Price not available") := by
  have hnp := noPrice_of_shape world symbol st pr hq hshape
  refine ⟨?_, ?_, ?_⟩
  · unfold workerFetch resolveQuote
    simp only [hp, hm, hrw, hc, hnp, beq_self_eq_true, if_true]
    cases hs : searchYahooSymbol world symbol with
    | error => simp [hs]
    | ok l => cases l with
      | nil => simp [hs]
      | cons a as => simp [hs]
  · intro s ss hs
    constructor
    · unfold workerFetch resolveQuote
      simp only [hp, hm, hrw, hc, hnp, hs, beq_self_eq_true, if_true]
      simp
    · exact searchYahooSymbol_ok_length world symbol _ hs
  · intro hs
    unfold workerFetch resolveQuote
    rcases hs with hs | hs <;>
      simp [hp, hm, hrw, hc, hnp, hs]

/-- Concrete instantiation of the C2 theorem. -/
theorem c2_witness :
    (workerFetch ⟨fun _ => .resp 404 none,
        fun _ => .resp true [some "AAPL", none, some "APLE", some "AAPU", some "X"]⟩
      ⟨none, none⟩ (fun _ => none) ⟨"GET", ⟨"http://h", "/api/quotes/MISS", ""⟩⟩).searchCalls =
        ["MISS"] ∧
    (∀ s ss, searchYahooSymbol ⟨fun _ => .resp 404 none,
        fun _ => .resp true [some "AAPL", none, some "APLE", some "AAPU", some "X"]⟩ "MISS" =
          .ok (s :: ss) →
      (workerFetch ⟨fun _ => .resp 404 none,
          fun _ => .resp true [some "AAPL", none, some "APLE", some "AAPU", some "X"]⟩
        ⟨none, none⟩ (fun _ => none) ⟨"GET", ⟨"http://h", "/api/quotes/MISS", ""⟩⟩).response =
        textResponse 200 ("Symbol not found - similar: " ++ String.intercalate " " (s :: ss)) ∧
      (s :: ss).length ≤ 3) ∧
    ((searchYahooSymbol ⟨fun _ => .resp 404 none,
        fun _ => .resp true [some "AAPL", none, some "APLE", some "AAPU", some "X"]⟩ "MISS" =
          .ok [] ∨
      searchYahooSymbol ⟨fun _ => .resp 404 none,
        fun _ => .resp true [some "AAPL", none, some "APLE", some "AAPU", some "X"]⟩ "MISS" =
          .error) →
      (workerFetch ⟨fun _ => .resp 404 none,
          fun _ => .resp true [some "AAPL", none, some "APLE", some "AAPU", some "X"]⟩
        ⟨none, none⟩ (fun _ => none) ⟨"GET", ⟨"http://h", "/api/quotes/MISS", ""⟩⟩).response =
        textResponse 404 "Price not available") :=
  c2_no_price_suggestions _ _ _ _ "MISS" 404 none rfl (by decide) (by decide) rfl (by decide)
    (Or.inl rfl)

/-- Claim C3: when the upstream quote call fails (rejected fetch, or an HTTP
status that is neither 2xx nor 404) the handler responds 500 with body
"Error fetching quote: " followed by the error message, Content-Type
text/plain, and performs no cache store. -/
theorem c3_upstream_failure (world : World) (env : Env) (cache : Cache) (req : Request)
    (symbol : String)
    (hm : req.method = "GET")
    (hp : matchQuotesPath req.url.pathname = some symbol)
    (hrw : (tryRewriteExchangeSymbol world symbol req.url).redirect = none)
    (hc : cache (cacheKeyOf req.url) = none)
    (hfail : (∃ m, world.quote symbol = .fetchError m) ∨
      (∃ st pr, world.quote symbol = .resp st pr ∧ st ≠ 404 ∧ ¬(200 ≤ st ∧ st ≤ 299))) :
    (∃ m, (workerFetch world env cache req).response =
      textResponse 500 ("Error fetching quote: " ++ m)) ∧
    (workerFetch world env cache req).cachePut = none := by
  have herr : ∃ m, getYahooQuote world symbol = .error m := by
    rcases hfail with ⟨m, hw⟩ | ⟨st, pr, hw, h404, hok⟩
    · exact ⟨m, by unfold getYahooQuote; rw [hw]⟩
    · refine ⟨"Yahoo Finance API error: " ++ toString st, ?_⟩
      unfold getYahooQuote
      rw [hw]
      have hb : (200 ≤ st && st ≤ 299) = false := by
        by_cases h1 : 200 ≤ st
        · by_cases h2 : st ≤ 299
          · exact absurd ⟨h1, h2⟩ hok
          · simp [h2]
        · simp [h1]
      simp [h404, hb]
  obtain ⟨m, hq⟩ := herr
  refine ⟨⟨m, ?_⟩, ?_⟩ <;>
    (unfold workerFetch resolveQuote
     simp only [hp, hm, hrw, hc, hq, beq_self_eq_true, if_true])

/-- Concrete instantiation of the C3 theorem. -/
theorem c3_witness :
    (∃ m, (workerFetch ⟨fun _ => .resp 500 none, fun _ => .resp true []⟩ ⟨none, none⟩
        (fun _ => none) ⟨"GET", ⟨"http://h", "/api/quotes/ZZZ", ""⟩⟩).response =
      textResponse 500 ("Error fetching quote: " ++ m)) ∧
    (workerFetch ⟨fun _ => .resp 500 none, fun _ => .resp true []⟩ ⟨none, none⟩
        (fun _ => none) ⟨"GET", ⟨"http://h", "/api/quotes/ZZZ", ""⟩⟩).cachePut = none :=
  c3_upstream_failure _ _ _ _ "ZZZ" rfl (by decide) (by decide) rfl
    (Or.inr ⟨500, none, rfl, by decide, by decide⟩)

lemma tryRewrite_hit (world : World) (symbol : String) (url : Url) (pre base : String)
    (p : JSNumber)
    (hcol : jsContainsChar symbol ':' = true)
    (hsplit : jsSplitColon symbol = [pre, base])
    (hpre : jsToUpper pre = "BIT")
    (hbase : base ≠ "")
    (hq : getYahooQuote world (base ++ ".MI") = .price p) :
    tryRewriteExchangeSymbol world symbol url =
      ⟨some (Response.redirect
        (url.origin ++ "/api/quotes/" ++ encodeURIComponent (base ++ ".MI")) 301),
       [base ++ ".MI"]⟩ := by
  unfold tryRewriteExchangeSymbol
  simp only [hcol, hsplit, hpre, Bool.not_true, Bool.false_eq_true, if_false,
    List.headD, List.drop, hq, bne_self_eq_false, Bool.false_or]
  simp [hbase]

lemma tryRewrite_miss (world : World) (symbol : String) (url : Url) (pre base : String)
    (hcol : jsContainsChar symbol ':' = true)
    (hsplit : jsSplitColon symbol = [pre, base])
    (hpre : jsToUpper pre = "BIT")
    (hbase : base ≠ "")
    (hq : getYahooQuote world (base ++ ".MI") = .noPrice ∨
      ∃ m, getYahooQuote world (base ++ ".MI") = .error m) :
    tryRewriteExchangeSymbol world symbol url = ⟨none, [base ++ ".MI"]⟩ := by
  unfold tryRewriteExchangeSymbol
  simp only [hcol, hsplit, hpre, Bool.not_true, Bool.false_eq_true, if_false,
    List.headD, List.drop, bne_self_eq_false, Bool.false_or]
  rcases hq with hq | ⟨m, hq⟩ <;> simp [hbase, hq]

/-- Claim C6: for a GET on the quotes path whose symbol splits on the colon as
PREFIX and BASE with PREFIX case-insensitively "BIT" and BASE non-empty, the
handler probes BASE.MI; a price yields a 301 redirect to
/api/quotes/BASE.MI URL-encoded, while no price or a thrown probe error is
swallowed and resolution continues normally with the original symbol. -/
theorem c6_bit_prefix_rewrite (world : World) (env : Env) (cache : Cache) (req : Request)
    (symbol pre base : String)
    (hm : req.method = "GET")
    (hp : matchQuotesPath req.url.pathname = some symbol)
    (hcol : jsContainsChar symbol ':' = true)
    (hsplit : jsSplitColon symbol = [pre, base])
    (hpre : jsToUpper pre = "BIT")
    (hbase : base ≠ "") :
    (∀ p, getYahooQuote world (base ++ ".MI") = .price p →
      (workerFetch world env cache req).response =
        Response.redirect (req.url.origin ++ "/api/quotes/" ++
          encodeURIComponent (base ++ ".MI")) 301) ∧
    ((getYahooQuote world (base ++ ".MI") = .noPrice ∨
      (∃ m, getYahooQuote world (base ++ ".MI") = .error m)) →
      (workerFetch world env cache req).response =
        (resolveQuote world env cache req.url symbol).response) := by
  constructor
  · intro p hq
    have hrw := tryRewrite_hit world symbol req.url pre base p hcol hsplit hpre hbase hq
    unfold workerFetch
    simp only [hp, hm, hrw, beq_self_eq_true, if_true]
  · intro hq
    have hrw := tryRewrite_miss world symbol req.url pre base hcol hsplit hpre hbase hq
    unfold workerFetch
    simp only [hp, hm, hrw, beq_self_eq_true, if_true]

/-- Concrete instantiation of the C6 theorem. -/
theorem c6_witness :
    (∀ p, getYahooQuote ⟨fun s => if s == "VWCE.MI" then .resp 200 (some ⟨"112.34"⟩)
          else .resp 404 none, fun _ => .resp true []⟩ ("VWCE" ++ ".MI") = .price p →
      (workerFetch ⟨fun s => if s == "VWCE.MI" then .resp 200 (some ⟨"112.34"⟩)
          else .resp 404 none, fun _ => .resp true []⟩ ⟨none, none⟩ (fun _ => none)
        ⟨"GET", ⟨"http://h", "/api/quotes/BIT:VWCE", ""⟩⟩).response =
        Response.redirect (Url.origin ⟨"http://h", "/api/quotes/BIT:VWCE", ""⟩ ++
          "/api/quotes/" ++ encodeURIComponent ("VWCE" ++ ".MI")) 301) ∧
    ((getYahooQuote ⟨fun s => if s == "VWCE.MI" then .resp 200 (some ⟨"112.34"⟩)
          else .resp 404 none, fun _ => .resp true []⟩ ("VWCE" ++ ".MI") = .noPrice ∨
      (∃ m, getYahooQuote ⟨fun s => if s == "VWCE.MI" then .resp 200 (some ⟨"112.34"⟩)
          else .resp 404 none, fun _ => .resp true []⟩ ("VWCE" ++ ".MI") = .error m)) →
      (workerFetch ⟨fun s => if s == "VWCE.MI" then .resp 200 (some ⟨"112.34"⟩)
          else .resp 404 none, fun _ => .resp true []⟩ ⟨none, none⟩ (fun _ => none)
        ⟨"GET", ⟨"http://h", "/api/quotes/BIT:VWCE", ""⟩⟩).response =
        (resolveQuote ⟨fun s => if s == "VWCE.MI" then .resp 200 (some ⟨"112.34"⟩)
          else .resp 404 none, fun _ => .resp true []⟩ ⟨none, none⟩ (fun _ => none)
          (Url.mk "http://h" "/api/quotes/BIT:VWCE" "") "BIT:VWCE").response) :=
  c6_bit_prefix_rewrite _ _ _ _ "BIT:VWCE" "BIT" "VWCE" rfl (by decide) (by decide)
    (by decide) (by decide) (by decide)

/-- Claim C10: the exchange-prefix rewrite runs before the cache is consulted:
when the BIT probe yields a price, the handler returns the 301 redirect with
no cache lookup and no cache store, for every cache content - including one
holding an entry for this request's key. -/
theorem c10_rewrite_before_cache (world : World) (env : Env) (cache : Cache) (req : Request)
    (symbol pre base : String) (p : JSNumber)
    (hm : req.method = "GET")
    (hp : matchQuotesPath req.url.pathname = some symbol)
    (hcol : jsContainsChar symbol ':' = true)
    (hsplit : jsSplitColon symbol = [pre, base])
    (hpre : jsToUpper pre = "BIT")
    (hbase : base ≠ "")
    (hq : getYahooQuote world (base ++ ".MI") = .price p) :
    (workerFetch world env cache req).response =
      Response.redirect (req.url.origin ++ "/api/quotes/" ++
        encodeURIComponent (base ++ ".MI")) 301 ∧
    (workerFetch world env cache req).cacheLookups = [] ∧
    (workerFetch world env cache req).cachePut = none := by
  have hrw := tryRewrite_hit world symbol req.url pre base p hcol hsplit hpre hbase hq
  unfold workerFetch
  simp only [hp, hm, hrw, beq_self_eq_true, if_true]
  exact ⟨trivial, trivial, trivial⟩

/-- Concrete instantiation of the C10 theorem, with a cache that does hold an
entry under this request's key. -/
theorem c10_witness :
    (workerFetch ⟨fun s => if s == "X.MI" then .resp 200 (some ⟨"7"⟩) else .resp 404 none,
        fun _ => .resp true []⟩ ⟨none, none⟩
      (fun k => if k == "http://h/api/quotes/BIT:X" then some (textResponse 200 "42")
        else none)
      ⟨"GET", ⟨"http://h", "/api/quotes/BIT:X", ""⟩⟩).response =
      Response.redirect (Url.origin ⟨"http://h", "/api/quotes/BIT:X", ""⟩ ++
        "/api/quotes/" ++ encodeURIComponent ("X" ++ ".MI")) 301 ∧
    (workerFetch ⟨fun s => if s == "X.MI" then .resp 200 (some ⟨"7"⟩) else .resp 404 none,
        fun _ => .resp true []⟩ ⟨none, none⟩
      (fun k => if k == "http://h/api/quotes/BIT:X" then some (textResponse 200 "42")
        else none)
      ⟨"GET", ⟨"http://h", "/api/quotes/BIT:X", ""⟩⟩).cacheLookups = [] ∧
    (workerFetch ⟨fun s => if s == "X.MI" then .resp 200 (some ⟨"7"⟩) else .resp 404 none,
        fun _ => .resp true []⟩ ⟨none, none⟩
      (fun k => if k == "http://h/api/quotes/BIT:X" then some (textResponse 200 "42")
        else none)
      ⟨"GET", ⟨"http://h", "/api/quotes/BIT:X", ""⟩⟩).cachePut = none :=
  c10_rewrite_before_cache _ _ _ _ "BIT:X" "BIT" "X" ⟨"7"⟩ rfl (by decide) (by decide)
    (by decide) (by decide) (by decide) (by decide)

/-- Claim C7: a GET on exactly the root path returns a 301 redirect to
ROOT_REDIRECT_URL when that variable is set to a valid http/https URL, and
falls back to 404 "Not Found" when the variable is unset or invalid. -/
theorem c7_root_redirect (world : World) (env : Env) (cache : Cache) (req : Request)
    (hpath : req.url.pathname = "/") (hm : req.method = "GET") :
    (∀ u, env.ROOT_REDIRECT_URL = some u → isValidUrl u = true →
      (workerFetch world env cache req).response = Response.redirect u 301) ∧
    ((env.ROOT_REDIRECT_URL = none ∨
      (∃ u, env.ROOT_REDIRECT_URL = some u ∧ isValidUrl u = false)) →
      (workerFetch world env cache req).response = textResponse 404 "Not Found") := by
  have hmq : matchQuotesPath "/" = none := by decide
  constructor
  · intro u hu hv
    have hne : u ≠ "" := by
      intro h
      subst h
      exact absurd hv (by decide)
    have hbne : (u != "") = true := by simp [hne]
    unfold workerFetch rootOrNotFound
    simp [hpath, hmq, hm, hu, hv, hbne]
  · intro h
    unfold workerFetch rootOrNotFound
    rcases h with h | ⟨u, hu, hv⟩
    · simp [hpath, hmq, h]
    · simp [hpath, hmq, hu, hv]

/-- Concrete instantiation of the C7 theorem. -/
theorem c7_witness :
    (∀ u, (⟨none, some "https://example.com"⟩ : Env).ROOT_REDIRECT_URL = some u →
      isValidUrl u = true →
      (workerFetch ⟨fun _ => .resp 404 none, fun _ => .resp true []⟩
        ⟨none, some "https://example.com"⟩ (fun _ => none)
        ⟨"GET", ⟨"http://h", "/", ""⟩⟩).response = Response.redirect u 301) ∧
    (((⟨none, some "https://example.com"⟩ : Env).ROOT_REDIRECT_URL = none ∨
      (∃ u, (⟨none, some "https://example.com"⟩ : Env).ROOT_REDIRECT_URL = some u ∧
        isValidUrl u = false)) →
      (workerFetch ⟨fun _ => .resp 404 none, fun _ => .resp true []⟩
        ⟨none, some "https://example.com"⟩ (fun _ => none)
        ⟨"GET", ⟨"http://h", "/", ""⟩⟩).response = textResponse 404 "Not Found") :=
  c7_root_redirect _ _ _ _ rfl rfl

lemma rootOrNotFound_cases (env : Env) (url : Url) (m : String) :
    rootOrNotFound env url m =
      ⟨Response.redirect (env.ROOT_REDIRECT_URL.getD "") 301, [], [], [], none⟩ ∨
    rootOrNotFound env url m = ⟨textResponse 404 "Not Found", [], [], [], none⟩ := by
  cases henv : env.ROOT_REDIRECT_URL with
  | none => exact Or.inr (by simp [rootOrNotFound, henv])
  | some u =>
    unfold rootOrNotFound
    simp only [henv]
    split
    · exact Or.inl rfl
    · exact Or.inr rfl

lemma rootOrNotFound_cachePut (env : Env) (url : Url) (m : String) :
    (rootOrNotFound env url m).cachePut = none := by
  rcases rootOrNotFound_cases env url m with h | h <;> rw [h]

lemma resolveQuote_cachePut_shape (world : World) (env : Env) (cache : Cache) (url : Url)
    (sym : String) (k : String) (resp : Response)
    (h : (resolveQuote world env cache url sym).cachePut = some (k, resp)) :
    resp.status = 200 ∧ k = cacheKeyOf url ∧
      ∃ p, getYahooQuote world sym = .price p ∧ resp.body = p.str := by
  unfold resolveQuote at h
  rcases hc : cache (cacheKeyOf url) with _ | r
  · simp only [hc] at h
    rcases hq : getYahooQuote world sym with p | _ | m
    · simp only [hq] at h
      simp at h
      obtain ⟨hk, hr⟩ := h
      refine ⟨?_, hk.symm, p, rfl, ?_⟩ <;> simp [← hr, JSNumber.toString]
    · simp only [hq] at h
      rcases hs : searchYahooSymbol world sym with l | _
      · simp only [hs] at h
        split at h <;> simp at h
      · simp only [hs] at h
        simp at h
    · simp only [hq] at h
      simp at h
  · simp only [hc] at h
    simp at h

lemma workerFetch_cachePut_shape (world : World) (env : Env) (cache : Cache) (req : Request)
    (k : String) (resp : Response)
    (h : (workerFetch world env cache req).cachePut = some (k, resp)) :
    resp.status = 200 ∧ k = cacheKeyOf req.url ∧
      ∃ sym p, matchQuotesPath req.url.pathname = some sym ∧
        getYahooQuote world sym = .price p ∧ resp.body = p.str := by
  unfold workerFetch at h
  rcases hmq : matchQuotesPath req.url.pathname with _ | sym
  · simp only [hmq] at h
    rw [rootOrNotFound_cachePut] at h
    exact absurd h (by simp)
  · simp only [hmq] at h
    by_cases hg : (req.method == "GET") = true
    · simp only [hg, if_true] at h
      rcases hrd : (tryRewriteExchangeSymbol world sym req.url).redirect with _ | rr
      · simp only [hrd] at h
        have hshape := resolveQuote_cachePut_shape world env cache req.url sym k resp h
        refine ⟨hshape.1, hshape.2.1, sym, ?_⟩
        obtain ⟨p, hp1, hp2⟩ := hshape.2.2
        exact ⟨p, rfl, hp1, hp2⟩
      · simp only [hrd] at h
        simp at h
    · simp only [Bool.not_eq_true] at hg
      simp only [hg, Bool.false_eq_true, if_false] at h
      rw [rootOrNotFound_cachePut] at h
      exact absurd h (by simp)

/-- Refutation of claim C4 as stated: on a cache hit the handler does return
the stored response unmodified, but for symbol BIT:X whose probe finds no
price the exchange-prefix probe has already issued an upstream call (for
X.MI) before the cache lookup, so "issues no upstream call" fails. -/
theorem c4_cache_hit_counterexample :
    (fun k => if k == "http://h/api/quotes/BIT:X" then some (textResponse 200 "42")
      else none) (cacheKeyOf ⟨"http://h", "/api/quotes/BIT:X", ""⟩) =
      some (textResponse 200 "42") ∧
    (workerFetch ⟨fun s => if s == "X.MI" then .resp 404 none else .resp 200 (some ⟨"5"⟩),
        fun _ => .resp true []⟩ ⟨none, none⟩
      (fun k => if k == "http://h/api/quotes/BIT:X" then some (textResponse 200 "42")
        else none)
      ⟨"GET", ⟨"http://h", "/api/quotes/BIT:X", ""⟩⟩).response = textResponse 200 "42" ∧
    (workerFetch ⟨fun s => if s == "X.MI" then .resp 404 none else .resp 200 (some ⟨"5"⟩),
        fun _ => .resp true []⟩ ⟨none, none⟩
      (fun k => if k == "http://h/api/quotes/BIT:X" then some (textResponse 200 "42")
        else none)
      ⟨"GET", ⟨"http://h", "/api/quotes/BIT:X", ""⟩⟩).quoteCalls = ["X.MI"] := by
  decide

/-- Claim C4 (amended): on a cache hit the handler returns the stored response
unmodified, performs no search call, no cache store, and no upstream call
beyond those of the exchange-prefix probe that preceded the lookup (none when
the rewrite does not apply); and a cache entry is only ever created by
storing a status-200 priced response after a successful quote fetch. -/
theorem c4_cache_hit_and_store_invariant (world : World) (env : Env) (cache : Cache)
    (req : Request) (symbol : String) (r : Response)
    (hm : req.method = "GET")
    (hp : matchQuotesPath req.url.pathname = some symbol)
    (hrw : (tryRewriteExchangeSymbol world symbol req.url).redirect = none)
    (hc : cache (cacheKeyOf req.url) = some r) :
    ((workerFetch world env cache req).response = r ∧
     (workerFetch world env cache req).quoteCalls =
       (tryRewriteExchangeSymbol world symbol req.url).calls ∧
     (workerFetch world env cache req).searchCalls = [] ∧
     (workerFetch world env cache req).cachePut = none) ∧
    (∀ world' env' cache' req' k resp,
      (workerFetch world' env' cache' req').cachePut = some (k, resp) →
      resp.status = 200 ∧ k = cacheKeyOf req'.url ∧
        ∃ sym p, matchQuotesPath req'.url.pathname = some sym ∧
          getYahooQuote world' sym = .price p ∧ resp.body = p.str) := by
  constructor
  · unfold workerFetch resolveQuote
    simp only [hp, hm, hrw, hc, beq_self_eq_true, if_true]
    refine ⟨trivial, by simp, trivial, trivial⟩
  · intro world' env' cache' req' k resp h
    exact workerFetch_cachePut_shape world' env' cache' req' k resp h

/-- Concrete instantiation of the C4 amended theorem (no BIT probe, so the
probe call list is empty). -/
theorem c4_witness :
    ((workerFetch ⟨fun _ => .resp 404 none, fun _ => .resp true []⟩ ⟨none, none⟩
        (fun k => if k == "http://h/api/quotes/AAPL" then some (textResponse 200 "42")
          else none)
        ⟨"GET", ⟨"http://h", "/api/quotes/AAPL", ""⟩⟩).response = textResponse 200 "42" ∧
      (workerFetch ⟨fun _ => .resp 404 none, fun _ => .resp true []⟩ ⟨none, none⟩
        (fun k => if k == "http://h/api/quotes/AAPL" then some (textResponse 200 "42")
          else none)
        ⟨"GET", ⟨"http://h", "/api/quotes/AAPL", ""⟩⟩).quoteCalls =
        (tryRewriteExchangeSymbol ⟨fun _ => .resp 404 none, fun _ => .resp true []⟩ "AAPL"
          ⟨"http://h", "/api/quotes/AAPL", ""⟩).calls ∧
      (workerFetch ⟨fun _ => .resp 404 none, fun _ => .resp true []⟩ ⟨none, none⟩
        (fun k => if k == "http://h/api/quotes/AAPL" then some (textResponse 200 "42")
          else none)
        ⟨"GET", ⟨"http://h", "/api/quotes/AAPL", ""⟩⟩).searchCalls = [] ∧
      (workerFetch ⟨fun _ => .resp 404 none, fun _ => .resp true []⟩ ⟨none, none⟩
        (fun k => if k == "http://h/api/quotes/AAPL" then some (textResponse 200 "42")
          else none)
        ⟨"GET", ⟨"http://h", "/api/quotes/AAPL", ""⟩⟩).cachePut = none) ∧
    (∀ world' env' cache' req' k resp,
      (workerFetch world' env' cache' req').cachePut = some (k, resp) →
      resp.status = 200 ∧ k = cacheKeyOf req'.url ∧
        ∃ sym p, matchQuotesPath req'.url.pathname = some sym ∧
          getYahooQuote world' sym = .price p ∧ resp.body = p.str) :=
  c4_cache_hit_and_store_invariant _ _ _ _ "AAPL" (textResponse 200 "42") rfl (by decide)
    (by decide) (by decide)

lemma rewrite_redirect_is_redirect (world : World) (s : String) (url : Url) (r : Response)
    (h : (tryRewriteExchangeSymbol world s url).redirect = some r) :
    ∃ loc, r = Response.redirect loc 301 := by
  simp only [tryRewriteExchangeSymbol] at h
  split at h
  · simp at h
  · split at h
    · simp at h
    · split at h
      · simp at h
        exact ⟨_, h.symm⟩
      · simp at h

lemma resolveQuote_has_ct (world : World) (env : Env) (cache : Cache) (url : Url)
    (sym : String)
    (hcache : ∀ k r, cache k = some r → ("Content-Type", "text/plain") ∈ r.headers) :
    ("Content-Type", "text/plain") ∈ (resolveQuote world env cache url sym).response.headers := by
  unfold resolveQuote
  rcases hc : cache (cacheKeyOf url) with _ | r
  · simp only [hc]
    rcases hq : getYahooQuote world sym with p | _ | m
    · simp only [hq]
      simp
    · simp only [hq]
      rcases hs : searchYahooSymbol world sym with l | _
      · simp only [hs]
        split <;> simp [textResponse]
      · simp only [hs]
        simp [textResponse]
    · simp only [hq]
      simp [textResponse]
  · simp only [hc]
    exact hcache _ _ hc

/-- Refutation of claim C9 as stated: the 301 root redirect produced by
`Response.redirect` carries only a Location header, not Content-Type
text/plain. -/
theorem c9_redirect_counterexample :
    (workerFetch ⟨fun _ => .resp 404 none, fun _ => .resp true []⟩
      ⟨none, some "https://example.com"⟩ (fun _ => none)
      ⟨"GET", ⟨"http://h", "/", ""⟩⟩).response.status = 301 ∧
    ("Content-Type", "text/plain") ∉
      (workerFetch ⟨fun _ => .resp 404 none, fun _ => .resp true []⟩
        ⟨none, some "https://example.com"⟩ (fun _ => none)
        ⟨"GET", ⟨"http://h", "/", ""⟩⟩).response.headers := by
  decide

/-- Claim C9 (amended): provided every cached response carries Content-Type
text/plain (the store invariant guarantees this for entries the worker
itself wrote), every response of the handler carries Content-Type text/plain
except the 301 redirects, which carry only a Location header. -/
theorem c9_content_type_except_redirects (world : World) (env : Env) (cache : Cache)
    (req : Request)
    (hcache : ∀ k r, cache k = some r → ("Content-Type", "text/plain") ∈ r.headers) :
    (∃ loc, (workerFetch world env cache req).response = Response.redirect loc 301) ∨
    ("Content-Type", "text/plain") ∈ (workerFetch world env cache req).response.headers := by
  unfold workerFetch
  rcases hmq : matchQuotesPath req.url.pathname with _ | sym
  · simp only [hmq]
    rcases rootOrNotFound_cases env req.url req.method with h | h <;> rw [h]
    · exact Or.inl ⟨_, rfl⟩
    · right
      simp [textResponse]
  · simp only [hmq]
    by_cases hg : (req.method == "GET") = true
    · simp only [hg, if_true]
      rcases hrd : (tryRewriteExchangeSymbol world sym req.url).redirect with _ | rr
      · simp only [hrd]
        exact Or.inr (resolveQuote_has_ct world env cache req.url sym hcache)
      · simp only [hrd]
        obtain ⟨loc, hloc⟩ := rewrite_redirect_is_redirect world sym req.url rr hrd
        exact Or.inl ⟨loc, hloc⟩
    · simp only [Bool.not_eq_true] at hg
      simp only [hg, Bool.false_eq_true, if_false]
      rcases rootOrNotFound_cases env req.url req.method with h | h <;> rw [h]
      · exact Or.inl ⟨_, rfl⟩
      · right
        simp [textResponse]

/-- Concrete instantiation of the C9 amended theorem with an empty cache. -/
theorem c9_witness :
    (∃ loc, (workerFetch ⟨fun _ => .resp 200 (some ⟨"3"⟩), fun _ => .resp true []⟩
      ⟨none, none⟩ (fun _ => none)
      ⟨"GET", ⟨"http://h", "/api/quotes/AAPL", ""⟩⟩).response = Response.redirect loc 301) ∨
    ("Content-Type", "text/plain") ∈
      (workerFetch ⟨fun _ => .resp 200 (some ⟨"3"⟩), fun _ => .resp true []⟩
        ⟨none, none⟩ (fun _ => none)
        ⟨"GET", ⟨"http://h", "/api/quotes/AAPL", ""⟩⟩).response.headers :=
  c9_content_type_except_redirects _ _ _ _ (fun _ _ h => Option.noConfusion h)
